import Mathlib

/-!
Shallow embedding of `src/main.py` (class `Logger`): the instrumentation
wrapper produced by `Logger.write`, the message formatter `__schame_msg__`
(spelled `schame_msg` here), the log-file initializer `get_path`, and the
appender `write_file`.

Python dynamic values that can reach the formatter are modelled by `PyVal`
(ints, strings, and the empty `DotMap` that a missing DotMap attribute
yields).  The file system is abstracted to the single log file at
`exit_path`: `FS` records whether the parent directory exists and the file's
contents (`none` = file absent).  Time is a parameter `now`, the string
`datetime.strftime(datetime.now(), "%Y-%m-%d %H:%M")` would produce.
Python exceptions (AttributeError on a missing attribute, TypeError on
subscripting `None`) are modelled with `Except String`.
-/

namespace Logger

/-- ANSI escape constants of the `Logger` class. -/
def HEADER : String := "\x1b[95m"

def OKBLUE : String := "\x1b[94m"

def OKCYAN : String := "\x1b[96m"

def OKGREEN : String := "\x1b[92m"

def WARNING : String := "\x1b[93m"

def WHITE : String := "\x1b[97m"

def FAIL : String := "\x1b[91m"

def ENDC : String := "\x1b[0m"

def BOLD : String := "\x1b[1m"

def UNDERLINE : String := "\x1b[4m"

/-- Constructor configuration of `Logger.__init__` (defaults as in the
source).  `exit_path` is stored relative; the `os.getcwd()` prefix is
irrelevant to the abstract file system `FS`. -/
structure Config where
  lvl_logging : String := "info"
  exit_path : String := "/log/file.log"
  color_lvl : Bool := false
  write_all : Bool := true
deriving DecidableEq

/-- Dynamic Python value as it can occur in a wrapped call's returned
mapping or in an object attribute: an int, a string, or the empty `DotMap`
that reading a missing attribute off a `DotMap` yields. -/
inductive PyVal where
  | vint (n : Int)
  | vstr (s : String)
  | vdotmapEmpty
deriving DecidableEq

/-- The string `str(v)` produces (used by f-string interpolation; an empty
DotMap prints as `DotMap()`). -/
def pyStr : PyVal → String
  | .vint n => toString n
  | .vstr s => s
  | .vdotmapEmpty => "DotMap()"

/-- Python `format(s, "^width")`: center `s` in a field of `width`
characters; when it does not fit, leave it unchanged; an odd amount of
padding puts the extra space on the right. -/
def center (s : String) (width : Nat) : String :=
  if width ≤ s.length then s
  else
    String.mk (List.replicate ((width - s.length) / 2) ' ') ++ s ++
      String.mk (List.replicate (width - s.length - (width - s.length) / 2) ' ')

/-- Python `dict.get(k, d)` on a mapping with `PyVal` values (keys are
unique, as in a Python dict). -/
def dictGet (es : List (String × PyVal)) (k : String) (d : PyVal) : PyVal :=
  match es.lookup k with
  | some v => v
  | none => d

/-- The `data` dictionary handed to `__schame_msg__` by the wrapper:
`method` and `url` are always strings there, `msg` and `status_code` are
dynamic values. -/
structure MsgData where
  method : String
  url : String
  msg : PyVal
  status_code : PyVal
deriving DecidableEq

/-- Console text of the `info` branch of `__schame_msg__`. -/
def info_console (now : String) (d : MsgData) : String :=
  OKGREEN ++ "INFO" ++ ENDC ++ ":     " ++ now ++ " ||" ++
    WHITE ++ BOLD ++ center d.method 8 ++ ENDC ++ "||" ++
    WHITE ++ BOLD ++ center d.url 25 ++ ENDC ++ "||" ++
    OKGREEN ++ " " ++ center (pyStr d.status_code) 5 ++ " ||" ++
    " " ++ pyStr d.msg ++ ENDC

/-- File text of the `info` branch of `__schame_msg__`. -/
def info_file (now : String) (d : MsgData) : String :=
  "INFO" ++ ":     " ++ now ++ " ||" ++ center d.method 8 ++ "||" ++
    center d.url 25 ++ "|| " ++ center (pyStr d.status_code) 5 ++ " ||" ++
    " " ++ pyStr d.msg ++ "\n"

/-- Console text of the `error` branch of `__schame_msg__`. -/
def error_console (now : String) (d : MsgData) : String :=
  FAIL ++ "ERROR" ++ ENDC ++ ":    " ++ now ++ " ||" ++
    WHITE ++ BOLD ++ center d.method 8 ++ ENDC ++ "||" ++
    WHITE ++ BOLD ++ center d.url 25 ++ ENDC ++ "||" ++
    FAIL ++ " " ++ center (pyStr d.status_code) 5 ++ " ||" ++
    " " ++ pyStr d.msg ++ ENDC

/-- File text of the `error` branch of `__schame_msg__`. -/
def error_file (now : String) (d : MsgData) : String :=
  "ERROR:    " ++ now ++ " ||" ++ center d.method 8 ++ "||" ++
    center d.url 25 ++ "|| " ++ center (pyStr d.status_code) 5 ++ " ||" ++
    " " ++ pyStr d.msg ++ "\n"

/-- `Logger.__schame_msg__(self, type_msg, data)`: `None` (here `none`) for
a `type_msg` outside the accepted list, the `(console, file)` pair for
`info` and `error`, and `None` again for `warning` (its branch is `pass`)
and `debug` (no matching `case`).  Note the body never reads
`self.color_lvl`: the escape codes are emitted unconditionally. -/
def schame_msg (_self : Config) (now : String) (type_msg : String)
    (data : MsgData) : Option (String × String) :=
  if type_msg ∉ ["info", "error", "warning", "debug"] then none
  else if type_msg = "info" then some (info_console now data, info_file now data)
  else if type_msg = "error" then some (error_console now data, error_file now data)
  else none

/-- Abstract file system restricted to the log file at `exit_path`:
whether its parent directory exists, and the file's contents (`none` when
the file does not exist). -/
structure FS where
  dirExists : Bool
  file : Option String
deriving DecidableEq

/-- Header line `get_path` writes into a freshly created log file. -/
def creationHeader (now : String) : String :=
  "DEBUG" ++ ":    " ++ now ++ " || " ++ "Создан файл логгирования" ++ "\n"

/-- `Logger.get_path(self)`: when the log file already exists, do nothing;
otherwise create directory and file with the header line — any exception
during creation is swallowed (`creationFails` is the oracle for such an
internal failure, which leaves the file system unchanged).  Returns `True`
in every case. -/
def get_path (_self : Config) (creationFails : Bool) (now : String)
    (fs : FS) : FS × Bool :=
  if fs.file.isSome then (fs, true)
  else if creationFails then (fs, true)
  else ({ dirExists := true, file := some (creationHeader now) }, true)

/-- `Logger.write_file(self, msg)`: open the log file in append mode and
write `msg`.  Append mode creates a missing file when the directory exists;
when the directory is missing, `FileNotFoundError` is caught and
`"File Not Found"` is printed.  Returns the new file system and the list of
console prints. -/
def write_file (_self : Config) (fs : FS) (msg : String) : FS × List String :=
  if fs.dirExists then
    ({ fs with file := some (fs.file.getD "" ++ msg) }, [])
  else (fs, ["File Not Found"])

/-- A FastAPI-style request object: the capability set the wrapper reads
(`request.method` and `request.url.path`). -/
structure Request where
  method : String
  url_path : String
deriving DecidableEq

/-- An argument of the wrapped call: either a request-like object or any
other value. -/
inductive Arg where
  | req (r : Request)
  | other (v : PyVal)
deriving DecidableEq

/-- `a.method` (AttributeError on a value that is not request-like). -/
def Arg.getMethod : Arg → Except String String
  | .req r => .ok r.method
  | .other _ => .error "AttributeError: method"

/-- `a.url.path` (AttributeError on a value that is not request-like). -/
def Arg.getUrlPath : Arg → Except String String
  | .req r => .ok r.url_path
  | .other _ => .error "AttributeError: url"

/-- Return value of the wrapped callable, as the wrapper's `isinstance`
test distinguishes it: `None`, a `dict`, or any other object (carrying its
attribute table). -/
inductive Ret where
  | pynone
  | pydict (entries : List (String × PyVal))
  | pyobj (attrs : List (String × PyVal))
deriving DecidableEq

/-- Value the wrapper holds in `result` after the normalization step:
a `DotMap` (entries plus the separately assigned `status_code`), or the
untouched non-dict object. -/
inductive WrapRes where
  | dotmap (entries : List (String × PyVal)) (status_code : PyVal)
  | raw (attrs : List (String × PyVal))
deriving DecidableEq

/-- Attribute read `result.attr`: a `DotMap` answers a missing attribute
with an empty `DotMap`; any other object raises `AttributeError`. -/
def WrapRes.getattr : WrapRes → String → Except String PyVal
  | .dotmap es sc, a =>
    if a = "status_code" then .ok sc
    else .ok (dictGet es a .vdotmapEmpty)
  | .raw as, a =>
    match as.lookup a with
    | some v => .ok v
    | none => .error ("AttributeError: " ++ a)

/-- Lines 176-181 of `wrapper`: a dict or `None` is turned into a `DotMap`
whose `status_code` is `200` for `None` and `result.get("status_code", '-')`
for a dict; any other value is left as it is. -/
def normalize : Ret → WrapRes
  | .pynone => .dotmap [] (.vint 200)
  | .pydict es => .dotmap es (dictGet es "status_code" (.vstr "-"))
  | .pyobj as => .raw as

/-- Python `result.status_code != 200` (an `int` compares by value;
a string or a DotMap is never equal to the int `200`). -/
def pyNe200 : PyVal → Bool
  | .vint n => n != 200
  | .vstr _ => true
  | .vdotmapEmpty => true

/-- Lines 196-197 of `wrapper`: `type_msg` is `"error"` when
`result.status_code != 200`, else the initial `"info"`. -/
def classify (sc : PyVal) : String :=
  if pyNe200 sc then "error" else "info"

/-- Lines 186-202 of `wrapper`: compute `(type_msg, data)` for
`__schame_msg__`.  Defaults are method `"-"`, url `func.__name__`, msg
`"OK"`; when the keyword arguments contain `request`, its `method` and
`url.path` and the result's `body` are read (in that order, each a
potential AttributeError). -/
def wrapperCtx (funcName : String) (kwargs : List (String × Arg))
    (result : WrapRes) : Except String (String × String × PyVal) :=
  match kwargs.lookup "request" with
  | none => .ok ("-", funcName, .vstr "OK")
  | some a =>
    match a.getMethod with
    | .error e => .error e
    | .ok m =>
      match a.getUrlPath with
      | .error e => .error e
      | .ok u =>
        match result.getattr "body" with
        | .error e => .error e
        | .ok b => .ok (m, u, b)

/-- Second half of the event computation: read `result.status_code` and
pick the message kind. -/
def wrapperEvent (funcName : String) (kwargs : List (String × Arg))
    (result : WrapRes) : Except String (String × MsgData) :=
  match wrapperCtx funcName kwargs result with
  | .error e => .error e
  | .ok (m, u, b) =>
    match result.getattr "status_code" with
    | .error e => .error e
    | .ok sc => .ok (classify sc, ⟨m, u, b, sc⟩)

/-- Python `message[0]` / `message[1]` when `message` may be `None`:
subscripting `None` raises `TypeError`. -/
def subscript {α : Type} : Option α → Except String α
  | some a => .ok a
  | none => .error "TypeError: NoneType object is not subscriptable"

/-- Everything the wrapper's body observably does: the value returned to
the caller, the console prints in order, and the final file system. -/
structure RunResult where
  ret : WrapRes
  console : List String
  fs : FS
deriving DecidableEq

/-- The `wrapper` closure `Logger.write(write_console, write_file)` builds
around `func`.  The wrapped call itself is abstracted by its name
(`func.__name__`) and its return value `ret`; the positional `args` are
passed through to `func` and never inspected by the wrapper's own body. -/
def wrapper (self : Config) (write_console write_file_flag : Bool)
    (funcName : String) (_args : List Arg) (kwargs : List (String × Arg))
    (ret : Ret) (now : String) (fs : FS) : Except String RunResult :=
  let result := normalize ret
  if self.write_all = false then
    .ok { ret := result, console := [], fs := fs }
  else
    match wrapperEvent funcName kwargs result with
    | .error e => .error e
    | .ok (type_msg, data) =>
      let message := schame_msg self now type_msg data
      match (if write_console then (subscript message).map (fun p => [p.1])
             else .ok []) with
      | .error e => .error e
      | .ok prints =>
        match (if write_file_flag then
                 (subscript message).map (fun p => write_file self fs p.2)
               else .ok (fs, [])) with
        | .error e => .error e
        | .ok (fs2, warn) =>
          .ok { ret := result, console := prints ++ warn, fs := fs2 }

/-- Whether a string contains the ANSI escape character `ESC` (`\x1b`),
the first byte of every color escape sequence the class emits. -/
def containsEsc (s : String) : Bool :=
  s.data.any (fun c => c == '\x1b')

end Logger

namespace Logger

theorem string_data_append (a b : String) : (a ++ b).data = a.data ++ b.data := by
  cases a; cases b; rfl

theorem containsEsc_append (a b : String) :
    containsEsc (a ++ b) = (containsEsc a || containsEsc b) := by
  simp [containsEsc, string_data_append]

theorem containsEsc_replicate (n : Nat) :
    containsEsc (String.mk (List.replicate n ' ')) = false := by
  simp only [containsEsc, List.any_eq_false]
  intro c hc
  rw [List.eq_of_mem_replicate hc]
  decide

theorem containsEsc_center (s : String) (w : Nat) :
    containsEsc (center s w) = containsEsc s := by
  unfold center
  split
  · rfl
  · simp [containsEsc_append, containsEsc_replicate]

theorem append_newline_getLast (a : String) :
    (a ++ "\n").data.getLast? = some '\n' := by
  rw [string_data_append]
  exact List.getLast?_concat _

theorem containsEsc_info_file (now : String) (d : MsgData)
    (h1 : containsEsc now = false) (h2 : containsEsc d.method = false)
    (h3 : containsEsc d.url = false) (h4 : containsEsc (pyStr d.msg) = false)
    (h5 : containsEsc (pyStr d.status_code) = false) :
    containsEsc (info_file now d) = false := by
  simp only [info_file, containsEsc_append, containsEsc_center, h1, h2, h3, h4, h5,
    Bool.or_false, Bool.false_or]
  decide

theorem containsEsc_error_file (now : String) (d : MsgData)
    (h1 : containsEsc now = false) (h2 : containsEsc d.method = false)
    (h3 : containsEsc d.url = false) (h4 : containsEsc (pyStr d.msg) = false)
    (h5 : containsEsc (pyStr d.status_code) = false) :
    containsEsc (error_file now d) = false := by
  simp only [error_file, containsEsc_append, containsEsc_center, h1, h2, h3, h4, h5,
    Bool.or_false, Bool.false_or]
  decide

theorem classify_iff (sc : PyVal) :
    (classify sc = "error" ↔ sc ≠ PyVal.vint 200) ∧
    (classify sc = "info" ↔ sc = PyVal.vint 200) := by
  cases sc with
  | vint n =>
    by_cases hn : n = 200
    · subst hn; simp [classify, pyNe200]
    · simp [classify, pyNe200, hn]
  | vstr s => simp [classify, pyNe200]
  | vdotmapEmpty => simp [classify, pyNe200]

theorem wrapperEvent_shape (funcName : String) (kwargs : List (String × Arg))
    (result : WrapRes) (tm : String) (d : MsgData)
    (h : wrapperEvent funcName kwargs result = Except.ok (tm, d)) :
    tm = classify d.status_code := by
  unfold wrapperEvent at h
  cases hc : wrapperCtx funcName kwargs result with
  | error e => rw [hc] at h; cases h
  | ok t =>
    obtain ⟨m, u, b⟩ := t
    rw [hc] at h
    cases hs : WrapRes.getattr result "status_code" with
    | error e => rw [hs] at h; cases h
    | ok sc =>
      rw [hs] at h
      simp only [Except.ok.injEq, Prod.mk.injEq] at h
      obtain ⟨h1, h2⟩ := h
      subst h1
      subst h2
      rfl

/-- Claim C1, counterexample: a mapping without a `status_code` key is
normalized to statusCode `'-'`, not `200` — the wrapped call returning
`{"detail": "boom"}` yields a result whose `status_code` is the string
`"-"`. -/
theorem normalize_dict_missing_status_ne_200 :
    (normalize (Ret.pydict [("detail", PyVal.vstr "boom")])).getattr "status_code" =
      Except.ok (PyVal.vstr "-") ∧
    (normalize (Ret.pydict [("detail", PyVal.vstr "boom")])).getattr "status_code" ≠
      Except.ok (PyVal.vint 200) := by
  refine ⟨rfl, fun h => ?_⟩
  simp [normalize, dictGet, WrapRes.getattr, List.lookup] at h

/-- Claim C1, amended: the normalization gives statusCode `200` exactly
when the return value is `None`; for a mapping, statusCode is the mapping's
`status_code` value when present and the string `'-'` when absent. -/
theorem normalize_status_code_spec (es : List (String × PyVal)) :
    normalize Ret.pynone = WrapRes.dotmap [] (PyVal.vint 200) ∧
    normalize (Ret.pydict es) =
      WrapRes.dotmap es (dictGet es "status_code" (PyVal.vstr "-")) :=
  ⟨rfl, rfl⟩

/-- Claim C2: whenever the wrapper's event computation succeeds, the event
kind is `"error"` iff the normalized result's statusCode is not the int
`200`, and `"info"` iff it is. -/
theorem wrapperEvent_error_iff_status_ne_200 (funcName : String)
    (kwargs : List (String × Arg)) (result : WrapRes) (tm : String)
    (d : MsgData) (h : wrapperEvent funcName kwargs result = Except.ok (tm, d)) :
    (tm = "error" ↔ d.status_code ≠ PyVal.vint 200) ∧
    (tm = "info" ↔ d.status_code = PyVal.vint 200) := by
  rw [wrapperEvent_shape funcName kwargs result tm d h]
  exact classify_iff d.status_code

theorem wrapperEvent_error_iff_witness :
    (("error" : String) = "error" ↔
      (⟨"-", "f", PyVal.vstr "OK", PyVal.vint 404⟩ : MsgData).status_code ≠ PyVal.vint 200) ∧
    (("error" : String) = "info" ↔
      (⟨"-", "f", PyVal.vstr "OK", PyVal.vint 404⟩ : MsgData).status_code = PyVal.vint 200) :=
  wrapperEvent_error_iff_status_ne_200 "f" [] (WrapRes.dotmap [] (PyVal.vint 404))
    "error" ⟨"-", "f", PyVal.vstr "OK", PyVal.vint 404⟩ rfl

/-- Claim C3, failing input for the claimed invariant: with
`color_lvl = false` the `info` console text still contains the ANSI escape
character — `__schame_msg__` never reads the flag. -/
theorem schame_msg_escapes_despite_color_off :
    ∃ p, schame_msg { color_lvl := false } "2024-01-01 00:00" "info"
        ⟨"-", "f", PyVal.vstr "OK", PyVal.vint 200⟩ = some p ∧
      containsEsc p.1 = true := by
  refine ⟨_, rfl, ?_⟩
  decide

/-- Claim C7: a message kind other than `info` and `error` — in particular
the accepted kinds `warning` and `debug` — produces no formatted output:
`__schame_msg__` returns `None` and raises nothing (the embedding is a
total function into `Option`). -/
theorem schame_msg_unsupported_kind_none (self : Config) (now : String)
    (d : MsgData) (k : String) (h1 : k ≠ "info") (h2 : k ≠ "error") :
    schame_msg self now k d = none := by
  unfold schame_msg
  by_cases hm : k ∈ ["info", "error", "warning", "debug"]
  · simp [hm, h1, h2]
  · simp [hm]

theorem schame_msg_unsupported_witness :
    schame_msg {} "2024-01-01 00:00" "warning"
      ⟨"-", "f", PyVal.vstr "OK", PyVal.vint 200⟩ = none :=
  schame_msg_unsupported_kind_none {} "2024-01-01 00:00"
    ⟨"-", "f", PyVal.vstr "OK", PyVal.vint 200⟩ "warning" (by decide) (by decide)

/-- Claim C4: for the supported kinds `info` and `error`, and inputs that
themselves carry no escape character, the produced fileText is free of
ANSI escape sequences and its last character is a newline. -/
theorem schame_msg_fileText_plain_and_newline (self : Config)
    (now type_msg : String) (d : MsgData)
    (hk : type_msg = "info" ∨ type_msg = "error")
    (h1 : containsEsc now = false) (h2 : containsEsc d.method = false)
    (h3 : containsEsc d.url = false) (h4 : containsEsc (pyStr d.msg) = false)
    (h5 : containsEsc (pyStr d.status_code) = false) :
    ∃ p, schame_msg self now type_msg d = some p ∧
      containsEsc p.2 = false ∧ p.2.data.getLast? = some '\n' := by
  rcases hk with hk | hk <;> subst hk
  · exact ⟨_, rfl, containsEsc_info_file now d h1 h2 h3 h4 h5,
      append_newline_getLast _⟩
  · exact ⟨_, rfl, containsEsc_error_file now d h1 h2 h3 h4 h5,
      append_newline_getLast _⟩

theorem schame_msg_fileText_witness :
    ∃ p, schame_msg {} "2024-01-01 00:00" "error"
        ⟨"GET", "/items", PyVal.vstr "not found", PyVal.vint 404⟩ = some p ∧
      containsEsc p.2 = false ∧ p.2.data.getLast? = some '\n' :=
  schame_msg_fileText_plain_and_newline {} "2024-01-01 00:00" "error"
    ⟨"GET", "/items", PyVal.vstr "not found", PyVal.vint 404⟩ (Or.inr rfl)
    (by decide) (by decide) (by decide) (by decide) (by decide)

/-- Claim C5: with the global flag `write_all = False` the wrapper returns
the normalized result at once — no console print, no file append, the file
system untouched. -/
theorem wrapper_disabled_no_effects (self : Config) (wc wf : Bool)
    (funcName : String) (args : List Arg) (kwargs : List (String × Arg))
    (ret : Ret) (now : String) (fs : FS) (h : self.write_all = false) :
    wrapper self wc wf funcName args kwargs ret now fs =
      Except.ok { ret := normalize ret, console := [], fs := fs } := by
  simp [wrapper, h]

theorem wrapper_disabled_witness :
    wrapper { write_all := false } true true "f" [] []
        (Ret.pydict [("status_code", PyVal.vint 500)]) "2024-01-01 00:00"
        ⟨true, some "header\n"⟩ =
      Except.ok {
        ret := normalize (Ret.pydict [("status_code", PyVal.vint 500)]),
        console := [],
        fs := ⟨true, some "header\n"⟩ } :=
  wrapper_disabled_no_effects { write_all := false } true true "f" [] []
    (Ret.pydict [("status_code", PyVal.vint 500)]) "2024-01-01 00:00"
    ⟨true, some "header\n"⟩ rfl

/-- Claim C6: with no `request` keyword argument the logged method is
`"-"`, the target is the wrapped function's name and the message is
`"OK"`; and a wrapped function returning `None` with logging enabled
yields exactly one `info` console line and one `info` file append with
statusCode `200`, method `"-"` and the function's name as target. -/
theorem wrapper_defaults_and_none_result (self : Config) (funcName : String)
    (args : List Arg) (kwargs : List (String × Arg)) (now : String) (fs : FS)
    (es : List (String × PyVal)) (sc : PyVal)
    (hw : self.write_all = true) (hreq : kwargs.lookup "request" = none)
    (hdir : fs.dirExists = true) :
    wrapperEvent funcName kwargs (WrapRes.dotmap es sc) =
      Except.ok (classify sc, ⟨"-", funcName, PyVal.vstr "OK", sc⟩) ∧
    wrapper self true true funcName args kwargs Ret.pynone now fs =
      Except.ok {
        ret := WrapRes.dotmap [] (PyVal.vint 200),
        console := [info_console now ⟨"-", funcName, PyVal.vstr "OK", PyVal.vint 200⟩],
        fs := ⟨true, some (fs.file.getD "" ++
          info_file now ⟨"-", funcName, PyVal.vstr "OK", PyVal.vint 200⟩)⟩ } := by
  constructor
  · simp [wrapperEvent, wrapperCtx, hreq, WrapRes.getattr]
  · simp [wrapper, hw, wrapperEvent, wrapperCtx, hreq, normalize, WrapRes.getattr,
      classify, pyNe200, schame_msg, subscript, write_file, hdir, Except.map]

theorem wrapper_defaults_witness :
    wrapperEvent "f" [] (WrapRes.dotmap [("x", PyVal.vint 1)] (PyVal.vint 404)) =
      Except.ok (classify (PyVal.vint 404), ⟨"-", "f", PyVal.vstr "OK", PyVal.vint 404⟩) ∧
    wrapper {} true true "f" [] [] Ret.pynone "2024-01-01 00:00" ⟨true, none⟩ =
      Except.ok {
        ret := WrapRes.dotmap [] (PyVal.vint 200),
        console := [info_console "2024-01-01 00:00" ⟨"-", "f", PyVal.vstr "OK", PyVal.vint 200⟩],
        fs := ⟨true, some ((none : Option String).getD "" ++
          info_file "2024-01-01 00:00" ⟨"-", "f", PyVal.vstr "OK", PyVal.vint 200⟩)⟩ } :=
  wrapper_defaults_and_none_result {} "f" [] [] "2024-01-01 00:00" ⟨true, none⟩
    [("x", PyVal.vint 1)] (PyVal.vint 404) rfl rfl rfl

/-- Claim C8: `get_path` returns `True` in every case — also when the
internal creation step fails — and an already-existing log file is left
with its contents unchanged. -/
theorem get_path_idempotent_and_true (self : Config) (creationFails : Bool)
    (now : String) (fs : FS) :
    (get_path self creationFails now fs).2 = true ∧
    (fs.file.isSome = true → get_path self creationFails now fs = (fs, true)) := by
  constructor
  · cases hf : fs.file.isSome <;> cases creationFails <;> simp [get_path, hf]
  · intro h; simp [get_path, h]

theorem get_path_witness :
    get_path {} true "2024-01-01 00:00" ⟨true, some "header\n"⟩ =
      (⟨true, some "header\n"⟩, true) :=
  (get_path_idempotent_and_true {} true "2024-01-01 00:00"
    ⟨true, some "header\n"⟩).2 rfl

/-- Claim C9: the wrapper looks for request context only under the keyword
name `request`: when no keyword argument is named `request` (even if a
request-like value sits among the keywords under another name), the
defaults are used, and the positional arguments never influence the
wrapper — prepending a request-like positional argument leaves the whole
run unchanged. -/
theorem wrapper_request_keyword_only (self : Config) (wc wf : Bool)
    (funcName : String) (args : List Arg) (r : Request)
    (kwargs : List (String × Arg)) (ret : Ret) (now : String) (fs : FS)
    (es : List (String × PyVal)) (sc : PyVal)
    (hreq : kwargs.lookup "request" = none) :
    wrapperEvent funcName kwargs (WrapRes.dotmap es sc) =
      Except.ok (classify sc, ⟨"-", funcName, PyVal.vstr "OK", sc⟩) ∧
    wrapper self wc wf funcName (Arg.req r :: args) kwargs ret now fs =
      wrapper self wc wf funcName args kwargs ret now fs :=
  ⟨by simp [wrapperEvent, wrapperCtx, hreq, WrapRes.getattr], rfl⟩

theorem wrapper_request_keyword_witness :
    wrapperEvent "handler" [("req", Arg.req ⟨"GET", "/x"⟩)]
        (WrapRes.dotmap [] (PyVal.vint 200)) =
      Except.ok (classify (PyVal.vint 200),
        ⟨"-", "handler", PyVal.vstr "OK", PyVal.vint 200⟩) ∧
    wrapper {} true true "handler" (Arg.req ⟨"GET", "/x"⟩ :: [])
        [("req", Arg.req ⟨"GET", "/x"⟩)] Ret.pynone "2024-01-01 00:00" ⟨true, none⟩ =
      wrapper {} true true "handler" [] [("req", Arg.req ⟨"GET", "/x"⟩)]
        Ret.pynone "2024-01-01 00:00" ⟨true, none⟩ :=
  wrapper_request_keyword_only {} true true "handler" [] ⟨"GET", "/x"⟩
    [("req", Arg.req ⟨"GET", "/x"⟩)] Ret.pynone "2024-01-01 00:00" ⟨true, none⟩
    [] (PyVal.vint 200) rfl

/-- Claim C10: a return value that is neither a mapping nor `None` is not
normalized and is kept as-is; with logging enabled the wrapper then reads
`status_code` straight off that value — when the attribute is missing the
whole call raises `AttributeError` (no log line, nothing returned), and
when it is present its value drives the classification. -/
theorem wrapper_raw_passthrough_and_attr_error (self : Config) (wc wf : Bool)
    (funcName : String) (args : List Arg) (kwargs : List (String × Arg))
    (attrs attrs2 : List (String × PyVal)) (v : PyVal) (now : String) (fs : FS)
    (hw : self.write_all = true) (hreq : kwargs.lookup "request" = none)
    (hmiss : attrs.lookup "status_code" = none)
    (hhit : attrs2.lookup "status_code" = some v) :
    normalize (Ret.pyobj attrs) = WrapRes.raw attrs ∧
    wrapper self wc wf funcName args kwargs (Ret.pyobj attrs) now fs =
      Except.error ("AttributeError: " ++ "status_code") ∧
    wrapperEvent funcName kwargs (WrapRes.raw attrs2) =
      Except.ok (classify v, ⟨"-", funcName, PyVal.vstr "OK", v⟩) := by
  refine ⟨rfl, ?_, ?_⟩
  · simp [wrapper, hw, wrapperEvent, wrapperCtx, hreq, normalize,
      WrapRes.getattr, hmiss]
  · simp [wrapperEvent, wrapperCtx, hreq, WrapRes.getattr, hhit]

theorem wrapper_raw_witness :
    normalize (Ret.pyobj [("detail", PyVal.vstr "x")]) =
      WrapRes.raw [("detail", PyVal.vstr "x")] ∧
    wrapper {} true true "f" [] [] (Ret.pyobj [("detail", PyVal.vstr "x")])
        "2024-01-01 00:00" ⟨true, none⟩ =
      Except.error ("AttributeError: " ++ "status_code") ∧
    wrapperEvent "f" [] (WrapRes.raw [("status_code", PyVal.vint 500)]) =
      Except.ok (classify (PyVal.vint 500),
        ⟨"-", "f", PyVal.vstr "OK", PyVal.vint 500⟩) :=
  wrapper_raw_passthrough_and_attr_error {} true true "f" [] []
    [("detail", PyVal.vstr "x")] [("status_code", PyVal.vint 500)]
    (PyVal.vint 500) "2024-01-01 00:00" ⟨true, none⟩ rfl rfl rfl rfl

end Logger

